import Mathlib

/-!
Shallow embedding of `src/corsaiflow/tools/data_repository_tool.py`
(`DataRepositoryTool._run`), the repository-selection scorer, together with
proofs of the spec's testable properties.

A repository descriptor is a Python dict with optional keys
`name`, `description`, `tool_name`, `tool_type`; we model a possibly missing
key as `Option String`.  `dict.get(k, d)` is `(field.getD d)`; `dict[k]` on a
missing key raises `KeyError`, modelled by `Except.error`.
-/

namespace DataRepoTool

/-- One entry of the `repositories` list: a dict with four optional keys. -/
structure Repo where
  name : Option String
  description : Option String
  tool_name : Option String
  tool_type : Option String
deriving DecidableEq, Repr

/-- Python `str.lower()` (ASCII case mapping, as `Char.toLower`). -/
def strLower (s : String) : String :=
  ⟨s.data.map Char.toLower⟩

/-- Python substring test `needle in hay`, by checking a prefix match at every
suffix of `hay` (the empty needle is contained in every string). -/
def containsSub (needle : List Char) : List Char → Bool
  | [] => needle.isEmpty
  | c :: rest => needle.isPrefixOf (c :: rest) || containsSub needle rest

/-- Python `needle in hay` on strings. -/
def strContains (hay needle : String) : Bool :=
  containsSub needle.data hay.data

/-- Python `str.split()` with no argument: split on runs of whitespace,
discarding empty tokens.  `acc` holds the current token reversed. -/
def pySplitAux (acc : List Char) : List Char → List String
  | [] => if acc.isEmpty then [] else [⟨acc.reverse⟩]
  | c :: cs =>
    if c.isWhitespace then
      if acc.isEmpty then pySplitAux [] cs else ⟨acc.reverse⟩ :: pySplitAux [] cs
    else
      pySplitAux (c :: acc) cs

/-- Python `s.split()`. -/
def pySplit (s : String) : List String :=
  pySplitAux [] s.data

/-- Trigger words for the `search` tool type (source line 93). -/
def searchWords : List String := ["search", "find", "look for"]

/-- Trigger words for the `analyst` tool type (source line 95). -/
def analystWords : List String := ["analyze", "analysis", "insight", "report"]

/-- Trigger words for the `sql` tool type (source line 97). -/
def sqlWords : List String := ["query", "select", "table", "database"]

/-- Trigger words for the `agent` tool type (source line 99). -/
def agentWords : List String := ["agent", "assistant", "help"]

/-- Source lines 84-86: `+2` if any query token is a substring of the
lowercased description (`repo.get("description", "").lower()`). -/
def descPoints (query_lower : String) (repo : Repo) : Nat :=
  if (pySplit query_lower).any (fun keyword =>
      strContains (strLower (repo.description.getD "")) keyword) then 2 else 0

/-- Source lines 88-89: `+1` if any query token is a substring of the
lowercased name (`repo.get("name", "").lower()`). -/
def namePoints (query_lower : String) (repo : Repo) : Nat :=
  if (pySplit query_lower).any (fun keyword =>
      strContains (strLower (repo.name.getD "")) keyword) then 1 else 0

/-- Source lines 92-100: the `elif` chain awarding `+2` when the (lowercased)
tool type matches and one of its trigger words occurs in the lowercased
query. -/
def typeBonus (query_lower : String) (tool_type : String) : Nat :=
  if tool_type == "search" && searchWords.any (strContains query_lower) then 2
  else if tool_type == "analyst" && analystWords.any (strContains query_lower) then 2
  else if tool_type == "sql" && sqlWords.any (strContains query_lower) then 2
  else if tool_type == "agent" && agentWords.any (strContains query_lower) then 2
  else 0

/-- Source lines 80-100: the total score of one repository descriptor. -/
def scoreRepo (query_lower : String) (repo : Repo) : Nat :=
  descPoints query_lower repo + namePoints query_lower repo +
    typeBonus query_lower (strLower (repo.tool_type.getD ""))

/-- One element of the `recommendations` list (source lines 103-109). -/
structure RecEntry where
  repository : Option String
  tool_name : Option String
  tool_type : Option String
  description : Option String
  score : Nat
deriving DecidableEq, Repr

/-- Source lines 103-109: the dict appended to `recommendations`. -/
def mkEntry (query_lower : String) (repo : Repo) : RecEntry :=
  { repository := repo.name
    tool_name := repo.tool_name
    tool_type := repo.tool_type
    description := repo.description
    score := scoreRepo query_lower repo }

/-- Source lines 78-109: descriptors scoring above zero, in catalog order. -/
def recommendationsFor (query_lower : String) (repositories : List Repo) : List RecEntry :=
  repositories.filterMap (fun repo =>
    if 0 < scoreRepo query_lower repo then some (mkEntry query_lower repo) else none)

/-- The comparison realised by `recommendations.sort(key=lambda x: x["score"],
reverse=True)`: stable, descending by score. -/
def scoreDesc (a b : RecEntry) : Prop := b.score ≤ a.score

instance : DecidableRel scoreDesc := fun a b => Nat.decLe b.score a.score

/-- Source line 118: Python's stable sort by score descending. -/
def sortedRecs (query_lower : String) (repositories : List Repo) : List RecEntry :=
  List.insertionSort scoreDesc (recommendationsFor query_lower repositories)

/-- One entry of `alternative_repositories` (source lines 130-137). -/
structure AltEntry where
  repository : Option String
  tool_name : Option String
  score : Nat
deriving DecidableEq, Repr

/-- Source lines 131-135. -/
def toAlt (e : RecEntry) : AltEntry :=
  { repository := e.repository, tool_name := e.tool_name, score := e.score }

/-- The JSON result dict of the success path (source lines 121-137). -/
structure Recommendation where
  recommended_repository : Option String
  tool_name : Option String
  tool_type : Option String
  description : Option String
  confidence : String
  alternative_repositories : Option (List AltEntry)
deriving DecidableEq, Repr

/-- The three outcomes of `_run`. -/
inductive RunOutcome where
  | noRepositoriesConfigured
  | noMatchFound (query : String) (availableNames : List String)
  | recommendation (rec : Recommendation)
deriving DecidableEq, Repr

/-- A raised Python exception, carrying the offending key. -/
inductive PyError where
  | keyError (key : String)
deriving DecidableEq, Repr

instance {ε α : Type} [DecidableEq ε] [DecidableEq α] : DecidableEq (Except ε α) := fun a b =>
  match a, b with
  | .ok x, .ok y => decidable_of_iff (x = y) (by simp)
  | .ok _, .error _ => .isFalse (by simp)
  | .error _, .ok _ => .isFalse (by simp)
  | .error x, .error y => decidable_of_iff (x = y) (by simp)

/-- The list comprehension `[r['name'] for r in self.repositories]` of source
line 114: `r['name']` on a dict without the `name` key raises `KeyError` (at
the first such descriptor). -/
def namesOf : List Repo → Except PyError (List String)
  | [] => .ok []
  | r :: rest =>
    match r.name with
    | some n => (namesOf rest).map (fun ns => n :: ns)
    | none => .error (.keyError "name")

/-- `DataRepositoryTool._run` (source lines 59-140).  Matching on the sorted
list is equivalent to the source's `if not recommendations` early return,
since sorting preserves emptiness. -/
def run (user_query : String) (repositories : List Repo) : Except PyError RunOutcome :=
  if repositories.isEmpty then
    .ok .noRepositoriesConfigured
  else
    match sortedRecs (strLower user_query) repositories with
    | [] =>
      match namesOf repositories with
      | .ok names => .ok (.noMatchFound user_query names)
      | .error e => .error e
    | top :: rest =>
      .ok (.recommendation
        { recommended_repository := top.repository
          tool_name := top.tool_name
          tool_type := top.tool_type
          description := top.description
          confidence := if 3 ≤ top.score then "high" else "medium"
          alternative_repositories :=
            if rest.isEmpty then none
            else some ((rest.take 2).map toAlt) })

/-- The two descriptors of the spec's worked scenarios (spec §8). -/
def productSearchRepo : Repo :=
  { name := some "Product Search"
    description := some "Search service for product information, inventory, and catalog data"
    tool_name := none
    tool_type := some "search" }

/-- Second scenario descriptor. -/
def revenueAnalyticsRepo : Repo :=
  { name := some "Revenue Analytics"
    description := some "Semantic view for revenue analysis, sales data, and financial metrics"
    tool_name := none
    tool_type := some "analyst" }

/-- The two-descriptor scenario catalog. -/
def scenarioCatalog : List Repo := [productSearchRepo, revenueAnalyticsRepo]

example : pySplit "Can you  search our product catalog?" =
    ["Can", "you", "search", "our", "product", "catalog?"] := by decide

example : strContains "product search" "search" = true := by decide

example : scoreRepo (strLower "Can you search our product catalog?") productSearchRepo = 5 := by
  decide

/-- C8: for every empty catalog and every query string, `_run` returns the
`NoRepositoriesConfigured` outcome; the query content has no effect. -/
theorem run_empty_catalog (user_query : String) :
    run user_query [] = .ok .noRepositoriesConfigured := rfl

lemma namesOf_of_isSome {catalog : List Repo} (h : ∀ r ∈ catalog, r.name.isSome) :
    namesOf catalog = .ok (catalog.map (fun r => r.name.getD "")) := by
  induction catalog with
  | nil => rfl
  | cons r c ih =>
    obtain ⟨n, hn⟩ := Option.isSome_iff_exists.mp (h r (List.mem_cons_self r c))
    have hrest := ih (fun x hx => h x (List.mem_cons_of_mem r hx))
    simp [namesOf, hn, hrest, Except.map]

lemma recommendationsFor_eq_nil {ql : String} {catalog : List Repo}
    (h : ∀ r ∈ catalog, scoreRepo ql r = 0) :
    recommendationsFor ql catalog = [] := by
  unfold recommendationsFor
  rw [List.filterMap_eq_nil_iff]
  intro r hr
  rw [if_neg]
  simp [h r hr]

/-- C1 counterexample: a non-empty catalog whose single descriptor is missing
every field, and a query on which it scores zero.  `_run` does not return the
no-match outcome: building the available-names list evaluates `r['name']`,
which raises `KeyError`. -/
theorem run_missing_name_raises_keyError :
    scoreRepo (strLower "zzz") (Repo.mk none none none none) = 0 ∧
    run "zzz" [Repo.mk none none none none] = .error (.keyError "name") := by decide

/-- C1 amended: for every non-empty catalog whose descriptors may be missing
`description`/`tool_name`/`tool_type` but all carry a `name`, and every query
on which every descriptor scores zero, `_run` returns the no-match outcome
with the original query and all catalog names in original order. -/
theorem run_all_zero_noMatchFound (q : String) (catalog : List Repo)
    (hne : catalog ≠ [])
    (hnames : ∀ r ∈ catalog, r.name.isSome)
    (hzero : ∀ r ∈ catalog, scoreRepo (strLower q) r = 0) :
    run q catalog = .ok (.noMatchFound q (catalog.map (fun r => r.name.getD ""))) := by
  have hempty : catalog.isEmpty = false := by
    cases catalog with
    | nil => exact absurd rfl hne
    | cons a l => rfl
  have hs : sortedRecs (strLower q) catalog = [] := by
    unfold sortedRecs
    rw [recommendationsFor_eq_nil hzero]
    rfl
  unfold run
  rw [hempty, hs, namesOf_of_isSome hnames]
  rfl

/-- Witness for C1 amended at a concrete catalog with missing optional
fields. -/
theorem run_all_zero_noMatchFound_witness :
    ([Repo.mk (some "A") none none none, Repo.mk (some "B") (some "bbb") none none] ≠
        ([] : List Repo)) ∧
    (∀ r ∈ [Repo.mk (some "A") none none none, Repo.mk (some "B") (some "bbb") none none],
        r.name.isSome) ∧
    (∀ r ∈ [Repo.mk (some "A") none none none, Repo.mk (some "B") (some "bbb") none none],
        scoreRepo (strLower "zzz") r = 0) ∧
    run "zzz" [Repo.mk (some "A") none none none, Repo.mk (some "B") (some "bbb") none none] =
      .ok (.noMatchFound "zzz" ["A", "B"]) :=
  ⟨by decide, by decide, by decide,
    run_all_zero_noMatchFound "zzz" _ (by decide) (by decide) (by decide)⟩

/-- C2 counterexample: on the spec's search scenario the single surviving
(top) descriptor scores 5, not 4 as claimed (the claim overlooks the `+1`
name-token bonus: the token `search` also occurs in the name
`Product Search`). -/
theorem search_scenario_top_score_five_ne_four :
    (sortedRecs (strLower "Can you search our product catalog?") scenarioCatalog).map
        RecEntry.score = [5] ∧ (5 : Nat) ≠ 4 := by decide

/-- C2 amended: the top descriptor's total is exactly 5, composed of the
description-token bonus (+2), the name-token bonus (+1) and the `search`
tool-type bonus (+2), and the confidence is `high`. -/
theorem search_scenario_score_breakdown :
    descPoints (strLower "Can you search our product catalog?") productSearchRepo = 2 ∧
    namePoints (strLower "Can you search our product catalog?") productSearchRepo = 1 ∧
    typeBonus (strLower "Can you search our product catalog?")
        (strLower (productSearchRepo.tool_type.getD "")) = 2 ∧
    scoreRepo (strLower "Can you search our product catalog?") productSearchRepo = 5 ∧
    run "Can you search our product catalog?" scenarioCatalog =
      .ok (.recommendation
        { recommended_repository := some "Product Search"
          tool_name := none
          tool_type := some "search"
          description := some "Search service for product information, inventory, and catalog data"
          confidence := "high"
          alternative_repositories := none }) := by decide

/-- C3 counterexample: on the analyze scenario the surviving (top) descriptor
`Revenue Analytics` scores 5, not 4 as claimed (the claim overlooks the `+1`
name-token bonus: the token `revenue` also occurs in `Revenue Analytics`). -/
theorem analyze_scenario_top_score_five_ne_four :
    (sortedRecs (strLower "analyze our revenue report") scenarioCatalog).map
        RecEntry.score = [5] ∧ (5 : Nat) ≠ 4 := by decide

/-- C3 amended: `Revenue Analytics` scores exactly 5 (description-token +2,
name-token +1, analyst-keyword +2) with confidence `high`, while
`Product Search` scores 0 and is excluded from the result. -/
theorem analyze_scenario_score_breakdown :
    descPoints (strLower "analyze our revenue report") revenueAnalyticsRepo = 2 ∧
    namePoints (strLower "analyze our revenue report") revenueAnalyticsRepo = 1 ∧
    typeBonus (strLower "analyze our revenue report")
        (strLower (revenueAnalyticsRepo.tool_type.getD "")) = 2 ∧
    scoreRepo (strLower "analyze our revenue report") revenueAnalyticsRepo = 5 ∧
    scoreRepo (strLower "analyze our revenue report") productSearchRepo = 0 ∧
    run "analyze our revenue report" scenarioCatalog =
      .ok (.recommendation
        { recommended_repository := some "Revenue Analytics"
          tool_name := none
          tool_type := some "analyst"
          description := some "Semantic view for revenue analysis, sales data, and financial metrics"
          confidence := "high"
          alternative_repositories := none }) := by decide

/-- The condition of source line 93. -/
def searchCond (query_lower tool_type : String) : Bool :=
  tool_type == "search" && searchWords.any (strContains query_lower)

/-- The condition of source line 95. -/
def analystCond (query_lower tool_type : String) : Bool :=
  tool_type == "analyst" && analystWords.any (strContains query_lower)

/-- The condition of source line 97. -/
def sqlCond (query_lower tool_type : String) : Bool :=
  tool_type == "sql" && sqlWords.any (strContains query_lower)

/-- The condition of source line 99. -/
def agentCond (query_lower tool_type : String) : Bool :=
  tool_type == "agent" && agentWords.any (strContains query_lower)

lemma typeBonus_eq_conds (ql tt : String) :
    typeBonus ql tt =
      if searchCond ql tt then 2
      else if analystCond ql tt then 2
      else if sqlCond ql tt then 2
      else if agentCond ql tt then 2
      else 0 := rfl

/-- How many of the four type-bonus conditions fire. -/
def typeCondCount (ql tt : String) : Nat :=
  (if searchCond ql tt then 1 else 0) + (if analystCond ql tt then 1 else 0) +
    (if sqlCond ql tt then 1 else 0) + (if agentCond ql tt then 1 else 0)

lemma searchCond_tt {ql tt : String} (h : searchCond ql tt = true) : tt = "search" :=
  eq_of_beq ((Bool.and_eq_true _ _).mp h).1

lemma analystCond_tt {ql tt : String} (h : analystCond ql tt = true) : tt = "analyst" :=
  eq_of_beq ((Bool.and_eq_true _ _).mp h).1

lemma sqlCond_tt {ql tt : String} (h : sqlCond ql tt = true) : tt = "sql" :=
  eq_of_beq ((Bool.and_eq_true _ _).mp h).1

lemma agentCond_tt {ql tt : String} (h : agentCond ql tt = true) : tt = "agent" :=
  eq_of_beq ((Bool.and_eq_true _ _).mp h).1

lemma typeBonus_mul_count (ql tt : String) :
    typeBonus ql tt = 2 * typeCondCount ql tt ∧ typeCondCount ql tt ≤ 1 := by
  by_cases h1 : searchCond ql tt <;> by_cases h2 : analystCond ql tt <;>
    by_cases h3 : sqlCond ql tt <;> by_cases h4 : agentCond ql tt
  all_goals first
    | exact absurd ((searchCond_tt h1).symm.trans (analystCond_tt h2)) (by decide)
    | exact absurd ((searchCond_tt h1).symm.trans (sqlCond_tt h3)) (by decide)
    | exact absurd ((searchCond_tt h1).symm.trans (agentCond_tt h4)) (by decide)
    | exact absurd ((analystCond_tt h2).symm.trans (sqlCond_tt h3)) (by decide)
    | exact absurd ((analystCond_tt h2).symm.trans (agentCond_tt h4)) (by decide)
    | exact absurd ((sqlCond_tt h3).symm.trans (agentCond_tt h4)) (by decide)
    | simp [typeBonus_eq_conds, typeCondCount, h1, h2, h3, h4]

lemma descPoints_le_two (ql : String) (r : Repo) : descPoints ql r ≤ 2 := by
  unfold descPoints
  split <;> omega

lemma namePoints_le_one (ql : String) (r : Repo) : namePoints ql r ≤ 1 := by
  unfold namePoints
  split <;> omega

lemma typeBonus_le_two (ql tt : String) : typeBonus ql tt ≤ 2 := by
  obtain ⟨he, hc⟩ := typeBonus_mul_count ql tt
  omega

/-- C4: for every (lowered) query and descriptor, at most one of the four
tool-type bonus conditions fires, the type bonus is twice the number of fired
conditions (so it is 0 or 2) and is added on top of the independent
description (+2) and name (+1) token points, and the total score is at most
5. -/
theorem scoreRepo_bonus_exclusive_and_bounded (ql : String) (r : Repo) :
    typeCondCount ql (strLower (r.tool_type.getD "")) ≤ 1 ∧
    typeBonus ql (strLower (r.tool_type.getD "")) =
      2 * typeCondCount ql (strLower (r.tool_type.getD "")) ∧
    scoreRepo ql r =
      descPoints ql r + namePoints ql r + typeBonus ql (strLower (r.tool_type.getD "")) ∧
    scoreRepo ql r ≤ 5 := by
  refine ⟨(typeBonus_mul_count _ _).2, (typeBonus_mul_count _ _).1, rfl, ?_⟩
  have h1 := descPoints_le_two ql r
  have h2 := namePoints_le_one ql r
  have h3 := typeBonus_le_two ql (strLower (r.tool_type.getD ""))
  unfold scoreRepo
  omega

lemma score_pos_of_mem_recommendations {ql : String} {repos : List Repo} {e : RecEntry}
    (he : e ∈ recommendationsFor ql repos) : 0 < e.score := by
  unfold recommendationsFor at he
  rw [List.mem_filterMap] at he
  obtain ⟨r, hr, hfr⟩ := he
  by_cases hpos : 0 < scoreRepo ql r
  · rw [if_pos hpos] at hfr
    injection hfr with hfr
    rw [← hfr]
    simpa [mkEntry] using hpos
  · rw [if_neg hpos] at hfr
    exact Option.noConfusion hfr

lemma mem_sortedRecs {ql : String} {repos : List Repo} {e : RecEntry} :
    e ∈ sortedRecs ql repos ↔ e ∈ recommendationsFor ql repos := by
  unfold sortedRecs
  exact List.mem_insertionSort scoreDesc

lemma run_rec_elim {q : String} {catalog : List Repo} {rec : Recommendation}
    (h : run q catalog = .ok (.recommendation rec)) :
    ∃ top rest, sortedRecs (strLower q) catalog = top :: rest ∧
      rec = { recommended_repository := top.repository
              tool_name := top.tool_name
              tool_type := top.tool_type
              description := top.description
              confidence := if 3 ≤ top.score then "high" else "medium"
              alternative_repositories :=
                if rest.isEmpty then none else some ((rest.take 2).map toAlt) } := by
  unfold run at h
  by_cases hc : catalog.isEmpty
  · rw [if_pos hc] at h
    simp at h
  · rw [if_neg hc] at h
    cases hs : sortedRecs (strLower q) catalog with
    | nil =>
      rw [hs] at h
      cases hn : namesOf catalog with
      | ok names =>
        rw [hn] at h
        simp at h
      | error e =>
        rw [hn] at h
        simp at h
    | cons top rest =>
      rw [hs] at h
      simp only [Except.ok.injEq, RunOutcome.recommendation.injEq] at h
      exact ⟨top, rest, rfl, h.symm⟩

lemma run_rec_of_positive {q : String} {catalog : List Repo}
    (hpos : ∃ r ∈ catalog, 0 < scoreRepo (strLower q) r) :
    ∃ top rest, sortedRecs (strLower q) catalog = top :: rest ∧
      run q catalog = .ok (.recommendation
        { recommended_repository := top.repository
          tool_name := top.tool_name
          tool_type := top.tool_type
          description := top.description
          confidence := if 3 ≤ top.score then "high" else "medium"
          alternative_repositories :=
            if rest.isEmpty then none else some ((rest.take 2).map toAlt) }) := by
  obtain ⟨r, hr, hrpos⟩ := hpos
  have hne : catalog.isEmpty = false := by
    cases catalog with
    | nil => simp at hr
    | cons a l => rfl
  have hmem : mkEntry (strLower q) r ∈ recommendationsFor (strLower q) catalog := by
    unfold recommendationsFor
    rw [List.mem_filterMap]
    exact ⟨r, hr, by rw [if_pos hrpos]⟩
  cases hs : sortedRecs (strLower q) catalog with
  | nil =>
    rw [← mem_sortedRecs, hs] at hmem
    simp at hmem
  | cons top rest =>
    refine ⟨top, rest, rfl, ?_⟩
    unfold run
    rw [hne, hs]
    rfl

/-- C6: for every catalog and query on which some descriptor scores above
zero, `_run` returns a recommendation whose confidence is `high` precisely
when the top entry's score is at least 3, and `medium` precisely when it is 1
or 2 (scores of surviving entries are always positive). -/
theorem confidence_thresholds (q : String) (catalog : List Repo)
    (hpos : ∃ r ∈ catalog, 0 < scoreRepo (strLower q) r) :
    ∃ rec top rest, run q catalog = .ok (.recommendation rec) ∧
      sortedRecs (strLower q) catalog = top :: rest ∧
      rec.recommended_repository = top.repository ∧
      1 ≤ top.score ∧
      (rec.confidence = "high" ↔ 3 ≤ top.score) ∧
      (rec.confidence = "medium" ↔ top.score = 1 ∨ top.score = 2) := by
  obtain ⟨top, rest, hs, hrun⟩ := run_rec_of_positive hpos
  have hmem : top ∈ sortedRecs (strLower q) catalog := by
    rw [hs]
    exact List.mem_cons_self _ _
  have hp1 : 1 ≤ top.score := score_pos_of_mem_recommendations (mem_sortedRecs.mp hmem)
  have hne : ("medium" : String) ≠ "high" := by decide
  have hne2 : ("high" : String) ≠ "medium" := by decide
  refine ⟨_, top, rest, hrun, hs, rfl, hp1, ?_, ?_⟩
  · by_cases h3 : 3 ≤ top.score
    · simp [h3]
    · simp [h3, hne]
  · by_cases h3 : 3 ≤ top.score
    · simp [h3, hne2]
      omega
    · simp [h3]
      omega

/-- Witness for C6 on the analyze scenario. -/
theorem confidence_thresholds_witness :
    (∃ r ∈ scenarioCatalog, 0 < scoreRepo (strLower "analyze our revenue report") r) ∧
    (∃ rec top rest,
      run "analyze our revenue report" scenarioCatalog = .ok (.recommendation rec) ∧
      sortedRecs (strLower "analyze our revenue report") scenarioCatalog = top :: rest ∧
      rec.recommended_repository = top.repository ∧
      1 ≤ top.score ∧
      (rec.confidence = "high" ↔ 3 ≤ top.score) ∧
      (rec.confidence = "medium" ↔ top.score = 1 ∨ top.score = 2)) :=
  ⟨by decide, confidence_thresholds "analyze our revenue report" scenarioCatalog (by decide)⟩

lemma recommendationsFor_length (ql : String) (repos : List Repo) :
    (recommendationsFor ql repos).length =
      repos.countP (fun r => decide (0 < scoreRepo ql r)) := by
  induction repos with
  | nil => rfl
  | cons r c ih =>
    unfold recommendationsFor at *
    rw [List.filterMap_cons, List.countP_cons]
    by_cases hp : 0 < scoreRepo ql r
    · simp [hp, ih]
    · simp [hp, ih]

/-- C7: whenever `_run` returns a recommendation, the alternatives are drawn
from the entries strictly after the top of the sorted list (so they never
include the top recommendation), number at most 2, all scored above zero, and
the field is present exactly when more than one descriptor scored above
zero. -/
theorem alternatives_shape (q : String) (catalog : List Repo) (rec : Recommendation)
    (h : run q catalog = .ok (.recommendation rec)) :
    ∃ top rest, sortedRecs (strLower q) catalog = top :: rest ∧
      rec.recommended_repository = top.repository ∧
      rec.alternative_repositories =
        (if rest.isEmpty then none else some ((rest.take 2).map toAlt)) ∧
      (∀ alts, rec.alternative_repositories = some alts →
        alts.length ≤ 2 ∧ (∀ a ∈ alts, 0 < a.score) ∧ alts = (rest.take 2).map toAlt) ∧
      (rec.alternative_repositories.isSome ↔
        1 < catalog.countP (fun r => decide (0 < scoreRepo (strLower q) r))) := by
  obtain ⟨top, rest, hs, hrec⟩ := run_rec_elim h
  subst hrec
  have hlen : (top :: rest).length = (recommendationsFor (strLower q) catalog).length := by
    rw [← hs]
    unfold sortedRecs
    exact List.length_insertionSort scoreDesc _
  rw [recommendationsFor_length] at hlen
  refine ⟨top, rest, hs, rfl, rfl, ?_, ?_⟩
  · intro alts halts
    by_cases hrest : rest.isEmpty
    · simp [hrest] at halts
    · simp only [hrest, Bool.false_eq_true, if_false, Option.some.injEq] at halts
      subst halts
      refine ⟨?_, ?_, rfl⟩
      · rw [List.length_map, List.length_take]
        omega
      · intro a ha
        rw [List.mem_map] at ha
        obtain ⟨e, he, hae⟩ := ha
        have he2 : e ∈ rest := (List.take_sublist 2 rest).subset he
        have he3 : e ∈ sortedRecs (strLower q) catalog := by
          rw [hs]
          exact List.mem_cons_of_mem _ he2
        have hsc := score_pos_of_mem_recommendations (mem_sortedRecs.mp he3)
        rw [← hae]
        simpa [toAlt] using hsc
  · by_cases hrest : rest.isEmpty
    · have hre : rest = [] := by
        cases rest with
        | nil => rfl
        | cons a l => exact absurd hrest (by simp)
      subst hre
      simp only [List.length_cons, List.length_nil] at hlen
      simp [hrest]
      omega
    · have hre : rest ≠ [] := by
        cases rest with
        | nil => simp at hrest
        | cons a l => simp
      have hlp : 0 < rest.length := List.length_pos.mpr hre
      simp only [List.length_cons] at hlen
      simp [hrest]
      omega

/-- Witness for C7 on a query matching both scenario descriptors. -/
theorem alternatives_shape_witness :
    run "search revenue" scenarioCatalog =
      .ok (.recommendation
        { recommended_repository := some "Product Search"
          tool_name := none
          tool_type := some "search"
          description := some "Search service for product information, inventory, and catalog data"
          confidence := "high"
          alternative_repositories :=
            some [{ repository := some "Revenue Analytics", tool_name := none, score := 3 }] }) ∧
    (∃ top rest, sortedRecs (strLower "search revenue") scenarioCatalog = top :: rest ∧
      Recommendation.recommended_repository
        { recommended_repository := some "Product Search"
          tool_name := none
          tool_type := some "search"
          description := some "Search service for product information, inventory, and catalog data"
          confidence := "high"
          alternative_repositories :=
            some [{ repository := some "Revenue Analytics", tool_name := none, score := 3 }] } =
        top.repository ∧
      Recommendation.alternative_repositories
        { recommended_repository := some "Product Search"
          tool_name := none
          tool_type := some "search"
          description := some "Search service for product information, inventory, and catalog data"
          confidence := "high"
          alternative_repositories :=
            some [{ repository := some "Revenue Analytics", tool_name := none, score := 3 }] } =
        (if rest.isEmpty then none else some ((rest.take 2).map toAlt)) ∧
      (∀ alts,
        Recommendation.alternative_repositories
          { recommended_repository := some "Product Search"
            tool_name := none
            tool_type := some "search"
            description := some "Search service for product information, inventory, and catalog data"
            confidence := "high"
            alternative_repositories :=
              some [{ repository := some "Revenue Analytics", tool_name := none, score := 3 }] } =
          some alts →
        alts.length ≤ 2 ∧ (∀ a ∈ alts, 0 < a.score) ∧ alts = (rest.take 2).map toAlt) ∧
      ((Recommendation.alternative_repositories
        { recommended_repository := some "Product Search"
          tool_name := none
          tool_type := some "search"
          description := some "Search service for product information, inventory, and catalog data"
          confidence := "high"
          alternative_repositories :=
            some [{ repository := some "Revenue Analytics", tool_name := none, score := 3 }] }).isSome ↔
        1 < scenarioCatalog.countP
          (fun r => decide (0 < scoreRepo (strLower "search revenue") r)))) :=
  ⟨by decide, alternatives_shape "search revenue" scenarioCatalog _ (by decide)⟩

lemma pair_get_sublist {α : Type} (l : List α) (i j : Nat) (hij : i < j) (hj : j < l.length) :
    List.Sublist [l.get ⟨i, Nat.lt_trans hij hj⟩, l.get ⟨j, hj⟩] l := by
  induction l generalizing i j with
  | nil => simp at hj
  | cons a l ih =>
    cases i with
    | zero =>
      cases j with
      | zero => omega
      | succ j2 =>
        exact List.Sublist.cons₂ a
          (List.singleton_sublist.mpr (List.get_mem l j2 (by simpa using hj)))
    | succ i2 =>
      cases j with
      | zero => omega
      | succ j2 => exact (ih i2 j2 (by omega) (by simpa using hj)).cons a

/-- C5: two descriptors with identical positive scores keep their original
catalog order in the sorted output: the pair of their recommendation entries,
in catalog order, is a sublist of the sorted recommendation list. -/
theorem stable_tie_ranking (q : String) (catalog : List Repo) (i j : Nat)
    (hij : i < j) (hj : j < catalog.length)
    (hipos : 0 < scoreRepo (strLower q) (catalog.get ⟨i, Nat.lt_trans hij hj⟩))
    (hjpos : 0 < scoreRepo (strLower q) (catalog.get ⟨j, hj⟩))
    (heq : scoreRepo (strLower q) (catalog.get ⟨i, Nat.lt_trans hij hj⟩) =
      scoreRepo (strLower q) (catalog.get ⟨j, hj⟩)) :
    List.Sublist
      [mkEntry (strLower q) (catalog.get ⟨i, Nat.lt_trans hij hj⟩),
        mkEntry (strLower q) (catalog.get ⟨j, hj⟩)]
      (sortedRecs (strLower q) catalog) := by
  have hpair := pair_get_sublist catalog i j hij hj
  have hfm := hpair.filterMap (fun repo =>
    if 0 < scoreRepo (strLower q) repo then some (mkEntry (strLower q) repo) else none)
  have hlhs : List.filterMap (fun repo =>
      if 0 < scoreRepo (strLower q) repo then some (mkEntry (strLower q) repo) else none)
      [catalog.get ⟨i, Nat.lt_trans hij hj⟩, catalog.get ⟨j, hj⟩] =
      [mkEntry (strLower q) (catalog.get ⟨i, Nat.lt_trans hij hj⟩),
        mkEntry (strLower q) (catalog.get ⟨j, hj⟩)] := by
    simp only [List.filterMap_cons, List.filterMap_nil]
    rw [if_pos hipos, if_pos hjpos]
  rw [hlhs] at hfm
  unfold sortedRecs
  refine List.sublist_insertionSort ?_ hfm
  refine List.pairwise_pair.mpr ?_
  show scoreRepo (strLower q) (catalog.get ⟨j, hj⟩) ≤
    scoreRepo (strLower q) (catalog.get ⟨i, Nat.lt_trans hij hj⟩)
  omega

/-- First descriptor of the tie witness. -/
def tieA : Repo := ⟨some "A", some "alpha data", none, none⟩

/-- Second descriptor of the tie witness. -/
def tieB : Repo := ⟨some "B", some "alpha data", none, none⟩

/-- Witness for C5 on two descriptors that both score 2. -/
theorem stable_tie_ranking_witness :
    (0 < 1) ∧ (1 < [tieA, tieB].length) ∧
    0 < scoreRepo (strLower "alpha") tieA ∧
    0 < scoreRepo (strLower "alpha") tieB ∧
    scoreRepo (strLower "alpha") tieA = scoreRepo (strLower "alpha") tieB ∧
    List.Sublist [mkEntry (strLower "alpha") tieA, mkEntry (strLower "alpha") tieB]
      (sortedRecs (strLower "alpha") [tieA, tieB]) :=
  ⟨by decide, by decide, by decide, by decide, by decide,
    stable_tie_ranking "alpha" [tieA, tieB] 0 1 (by decide) (by decide)
      (by decide) (by decide) (by decide)⟩

/-- Replace the query carried by a no-match outcome, leaving every other
outcome unchanged. -/
def eraseQuery : RunOutcome → RunOutcome
  | .noMatchFound _ names => .noMatchFound "" names
  | o => o

/-- C9 counterexample: two queries equal after lowercasing for which `_run`
returns different results, because the no-match outcome echoes the original
query verbatim. -/
theorem case_query_echo_counterexample :
    strLower "PRODUCT search" = strLower "product SEARCH" ∧
    run "PRODUCT search" [Repo.mk (some "Z") (some "zzz") none none] ≠
      run "product SEARCH" [Repo.mk (some "Z") (some "zzz") none none] := by decide

lemma rec_of_map_eraseQuery {x y : Except PyError RunOutcome} {rec : Recommendation}
    (hm : x.map eraseQuery = y.map eraseQuery) (hx : x = .ok (.recommendation rec)) :
    y = .ok (.recommendation rec) := by
  subst hx
  cases y with
  | error e => simp [Except.map] at hm
  | ok o =>
    cases o with
    | noRepositoriesConfigured => simp [Except.map, eraseQuery] at hm
    | noMatchFound qq names => simp [Except.map, eraseQuery] at hm
    | recommendation r2 =>
      simp [Except.map, eraseQuery] at hm
      rw [hm]

/-- C9 amended: queries equal after lowercasing yield identical results up to
the original query echoed in the no-match outcome; in particular they yield
exactly the same recommendations. -/
theorem run_depends_only_on_lowered_query (q1 q2 : String) (catalog : List Repo)
    (h : strLower q1 = strLower q2) :
    (run q1 catalog).map eraseQuery = (run q2 catalog).map eraseQuery ∧
    (∀ rec, run q1 catalog = .ok (.recommendation rec) ↔
      run q2 catalog = .ok (.recommendation rec)) := by
  have hmain : (run q1 catalog).map eraseQuery = (run q2 catalog).map eraseQuery := by
    unfold run
    by_cases hc : catalog.isEmpty
    · rw [if_pos hc, if_pos hc]
    · rw [if_neg hc, if_neg hc, h]
      cases hs : sortedRecs (strLower q2) catalog with
      | nil =>
        cases hn : namesOf catalog with
        | ok names => simp [Except.map, eraseQuery]
        | error e => simp [Except.map]
      | cons top rest => simp [Except.map, eraseQuery]
  exact ⟨hmain, fun rec =>
    ⟨fun h1 => rec_of_map_eraseQuery hmain h1,
     fun h2 => rec_of_map_eraseQuery hmain.symm h2⟩⟩

/-- Witness for C9 amended on the scenario catalog. -/
theorem run_depends_only_on_lowered_query_witness :
    strLower "PRODUCT search" = strLower "product SEARCH" ∧
    ((run "PRODUCT search" scenarioCatalog).map eraseQuery =
        (run "product SEARCH" scenarioCatalog).map eraseQuery ∧
      (∀ rec, run "PRODUCT search" scenarioCatalog = .ok (.recommendation rec) ↔
        run "product SEARCH" scenarioCatalog = .ok (.recommendation rec))) :=
  ⟨by decide,
    run_depends_only_on_lowered_query "PRODUCT search" "product SEARCH" scenarioCatalog
      (by decide)⟩

/-- C10: the tool-type bonus is case-insensitive on the descriptor side: the
score only depends on the lowercased tag, and for a descriptor whose
`tool_type` lowercases to one of the four recognized tags, the +2 bonus is
awarded exactly when the lowercased query contains one of that tag's trigger
words, exactly as for the lowercase tag itself. -/
theorem type_bonus_descriptor_case_insensitive (ql t : String) (r : Repo)
    (ht : r.tool_type = some t) :
    scoreRepo ql r = descPoints ql r + namePoints ql r + typeBonus ql (strLower t) ∧
    (strLower t = "search" →
      typeBonus ql (strLower t) = if searchWords.any (strContains ql) then 2 else 0) ∧
    (strLower t = "analyst" →
      typeBonus ql (strLower t) = if analystWords.any (strContains ql) then 2 else 0) ∧
    (strLower t = "sql" →
      typeBonus ql (strLower t) = if sqlWords.any (strContains ql) then 2 else 0) ∧
    (strLower t = "agent" →
      typeBonus ql (strLower t) = if agentWords.any (strContains ql) then 2 else 0) := by
  refine ⟨?_, ?_, ?_, ?_, ?_⟩
  · unfold scoreRepo
    rw [ht]
    rfl
  · intro hl
    rw [hl, typeBonus_eq_conds]
    simp [searchCond, analystCond, sqlCond, agentCond,
      show (("search" : String) == "search") = true from by decide,
      show (("search" : String) == "analyst") = false from by decide,
      show (("search" : String) == "sql") = false from by decide,
      show (("search" : String) == "agent") = false from by decide]
  · intro hl
    rw [hl, typeBonus_eq_conds]
    simp [searchCond, analystCond, sqlCond, agentCond,
      show (("analyst" : String) == "search") = false from by decide,
      show (("analyst" : String) == "analyst") = true from by decide,
      show (("analyst" : String) == "sql") = false from by decide,
      show (("analyst" : String) == "agent") = false from by decide]
  · intro hl
    rw [hl, typeBonus_eq_conds]
    simp [searchCond, analystCond, sqlCond, agentCond,
      show (("sql" : String) == "search") = false from by decide,
      show (("sql" : String) == "analyst") = false from by decide,
      show (("sql" : String) == "sql") = true from by decide,
      show (("sql" : String) == "agent") = false from by decide]
  · intro hl
    rw [hl, typeBonus_eq_conds]
    simp [searchCond, analystCond, sqlCond, agentCond,
      show (("agent" : String) == "search") = false from by decide,
      show (("agent" : String) == "analyst") = false from by decide,
      show (("agent" : String) == "sql") = false from by decide,
      show (("agent" : String) == "agent") = true from by decide]

/-- Witness for C10 on a descriptor tagged `SEARCH` (uppercase). -/
theorem type_bonus_descriptor_case_insensitive_witness :
    (Repo.mk none none none (some "SEARCH")).tool_type = some "SEARCH" ∧
    (scoreRepo "find data" (Repo.mk none none none (some "SEARCH")) =
        descPoints "find data" (Repo.mk none none none (some "SEARCH")) +
          namePoints "find data" (Repo.mk none none none (some "SEARCH")) +
          typeBonus "find data" (strLower "SEARCH") ∧
      (strLower "SEARCH" = "search" →
        typeBonus "find data" (strLower "SEARCH") =
          if searchWords.any (strContains "find data") then 2 else 0) ∧
      (strLower "SEARCH" = "analyst" →
        typeBonus "find data" (strLower "SEARCH") =
          if analystWords.any (strContains "find data") then 2 else 0) ∧
      (strLower "SEARCH" = "sql" →
        typeBonus "find data" (strLower "SEARCH") =
          if sqlWords.any (strContains "find data") then 2 else 0) ∧
      (strLower "SEARCH" = "agent" →
        typeBonus "find data" (strLower "SEARCH") =
          if agentWords.any (strContains "find data") then 2 else 0)) :=
  ⟨rfl, type_bonus_descriptor_case_insensitive "find data" "SEARCH" _ rfl⟩

end DataRepoTool
